import Mathlib

/-!
Verification of the CAPA grading core of this repository against its
natural-language specification.

Shallow embedding conventions:
* Python numbers are modelled by ℚ (floating-point rounding is not load-bearing
  for any property checked here); Python float special values Inf/NaN, where
  they matter (formula grading), are modelled by an explicit sum type.
* Mutable objects (CorrectMap) are modelled by pure values; methods that mutate
  and return the object are modelled as functions returning the new value.
* Display strings that no property depends on (breakdown "detail" texts) are
  assembled by simplified renderers; the structure and all graded data are kept.
* Code of this repository that is not under version control here
  (correctmap.py, calc.py, util.py, draganddrop.py) is modelled from the
  specification; each such definition carries a doc comment saying so.
-/

/-! ## Course grading aggregator (djangoapps/courseware/grades.py) -/

/-- Score namedtuple: earned, possible, graded, section (grades.py line 16).
The section field is named section_label here because section is a Lean
keyword. -/
structure Score where
  earned : ℚ
  possible : ℚ
  graded : Bool
  section_label : String
deriving DecidableEq

/-- One entry of a section_breakdown list (grades.py CourseGrader docstring).
The optional mark field models the mark key added to dropped entries. -/
structure BreakdownItem where
  percent : ℚ
  label : String
  detail : String
  category : String
  prominent : Bool
  mark : Option String
deriving DecidableEq

/-- One entry of a grade_breakdown list (grades.py CourseGrader docstring). -/
structure GradeBreakdownItem where
  percent : ℚ
  detail : String
  category : String
deriving DecidableEq

/-- Result dictionary of CourseGrader.grade: percent, section_breakdown,
grade_breakdown (grade_breakdown is [] for graders that omit the key). -/
structure GradeResult where
  percent : ℚ
  section_breakdown : List BreakdownItem
  grade_breakdown : List GradeBreakdownItem

/-- A grade sheet: mapping from section-format string to the list of Score for
sections of that format, modelled as an association list. -/
def GradeSheet : Type := List (String × List Score)

/-- grade_sheet.get(format, []) -/
def GradeSheet.getFormat (sheet : GradeSheet) (fmt : String) : List Score :=
  match sheet.find? (fun p => p.1 == fmt) with
  | some p => p.2
  | none => []

/-- Insert x into an already sorted list, after any element le-below-or-tied
with it: together with stableSort this reproduces the stable ascending sort
used by Python sorted(). -/
def insertStable {α : Type} (le : α → α → Bool) (x : α) : List α → List α
  | [] => [x]
  | y :: ys => if le y x then y :: insertStable le x ys else x :: y :: ys

/-- Stable insertion sort: model of the stable Python built-in sorted(). -/
def stableSort {α : Type} (le : α → α → Bool) (l : List α) : List α :=
  l.foldl (fun acc x => insertStable le x acc) []

/-- Python l[-n:] for n > 0: the last n elements (all of l when n ≥ len). -/
def takeLast {α : Type} (n : ℕ) (l : List α) : List α :=
  l.drop (l.length - n)

/-- "{index:02d}" zero-padded index used in short labels. -/
def pad2 (n : ℕ) : String :=
  if n < 10 then "0" ++ toString n else toString n

/-- Simplified renderer for percent values inside display strings
("{:.0%}" formatting); no checked property reads these strings. -/
def pctText (q : ℚ) : String :=
  toString q.num ++ "/" ++ toString q.den

/-- totalWithDrops helper of AssignmentFormatGrader.grade
(grades.py lines 210-225): sort (index, mark) pairs by descending percent
with a stable sort, drop the last drop_count indices, average the rest. -/
def totalWithDrops (breakdown : List BreakdownItem) (drop_count : ℕ) :
    ℚ × List ℕ :=
  let sorted_breakdown :=
    stableSort (fun a b => decide (b.2.percent ≤ a.2.percent)) breakdown.enum
  let dropped_indices :=
    if 0 < drop_count then (takeLast drop_count sorted_breakdown).map (·.1)
    else []
  let aggregate_score :=
    breakdown.enum.foldl
      (fun acc im =>
        if dropped_indices.contains im.1 then acc else acc + im.2.percent)
      0
  let aggregate_score :=
    if 0 < breakdown.length - drop_count then
      aggregate_score / ((breakdown.length - drop_count : ℕ) : ℚ)
    else aggregate_score
  (aggregate_score, dropped_indices)

/-- AssignmentFormatGrader configuration (grades.py lines 201-207, after the
constructor has defaulted category/section_type/short_label). -/
structure AssignmentFormatGrader where
  course_format : String
  min_count : ℕ
  drop_count : ℕ
  category : String
  section_type : String
  short_label : String

/-- One row of the per-section breakdown loop of AssignmentFormatGrader.grade
(grades.py lines 230-256), with settings.GENERATE_PROFILE_SCORES False
(the debug-only randomized-placeholder branch is not modelled). -/
def AssignmentFormatGrader.breakdownRow (g : AssignmentFormatGrader)
    (scores : List Score) (i : ℕ) : BreakdownItem :=
  match scores.get? i with
  | some sc =>
      { percent := sc.earned / sc.possible
        label := g.short_label ++ " " ++ pad2 (i + 1)
        detail := g.section_type ++ " " ++ toString (i + 1) ++ " - " ++
          sc.section_label ++ " - " ++ pctText (sc.earned / sc.possible)
        category := g.category
        prominent := false
        mark := none }
  | none =>
      { percent := 0
        label := g.short_label ++ " " ++ pad2 (i + 1)
        detail := g.section_type ++ " " ++ toString (i + 1) ++
          " Unreleased - 0% (?/?)"
        category := g.category
        prominent := false
        mark := none }

/-- AssignmentFormatGrader.grade (grades.py lines 209-272), with
settings.GENERATE_PROFILE_SCORES False: pad with zero placeholders up to
min_count, drop the lowest drop_count percents, average the rest, mark the
dropped rows and append the synthetic average row. -/
def AssignmentFormatGrader.grade (g : AssignmentFormatGrader)
    (grade_sheet : GradeSheet) : GradeResult :=
  let scores := grade_sheet.getFormat g.course_format
  let breakdown :=
    (List.range (max g.min_count scores.length)).map (g.breakdownRow scores)
  let td := totalWithDrops breakdown g.drop_count
  let total_percent := td.1
  let dropped_indices := td.2
  let breakdown := breakdown.enum.map (fun ib =>
    if dropped_indices.contains ib.1 then
      { ib.2 with mark := some ("The lowest " ++ toString g.drop_count ++ " " ++
          g.section_type ++ " scores are dropped.") }
    else ib.2)
  let breakdown := breakdown ++
    [{ percent := total_percent
       label := g.short_label ++ " Avg"
       detail := g.section_type ++ " Average = " ++ pctText total_percent
       category := g.category
       prominent := true
       mark := none }]
  { percent := total_percent
    section_breakdown := breakdown
    grade_breakdown := [] }

/-- Loop body of WeightedSubsectionsGrader.grade (grades.py lines 114-122):
grade the child, weight its percent, extend the running totals. -/
def WeightedSubsectionsGrader.step (grade_sheet : GradeSheet)
    (acc : ℚ × List BreakdownItem × List GradeBreakdownItem)
    (s : (GradeSheet → GradeResult) × String × ℚ) :
    ℚ × List BreakdownItem × List GradeBreakdownItem :=
  let subgrade_result := s.1 grade_sheet
  let weightedPercent := subgrade_result.percent * s.2.2
  (acc.1 + weightedPercent,
   acc.2.1 ++ subgrade_result.section_breakdown,
   acc.2.2 ++ [{ percent := weightedPercent
                 detail := s.2.1 ++ " = " ++ pctText weightedPercent ++
                   " of a possible " ++ pctText s.2.2
                 category := s.2.1 : GradeBreakdownItem }])

/-- WeightedSubsectionsGrader.grade (grades.py lines 109-126): each entry is a
(child grader, category_name, weight) triple; child graders are modelled as
functions from the grade sheet to their GradeResult. -/
def WeightedSubsectionsGrader.grade
    (sections : List ((GradeSheet → GradeResult) × String × ℚ))
    (grade_sheet : GradeSheet) : GradeResult :=
  let res := sections.foldl (WeightedSubsectionsGrader.step grade_sheet)
    ((0 : ℚ), ([] : List BreakdownItem), ([] : List GradeBreakdownItem))
  { percent := res.1
    section_breakdown := res.2.1
    grade_breakdown := res.2.2 }

/-- A child grader returning a fixed percent with empty breakdowns; used to
instantiate the weighted grader on the concrete example of the claims. -/
def constChildGrader (p : ℚ) : GradeSheet → GradeResult :=
  fun _ => { percent := p, section_breakdown := [], grade_breakdown := [] }

/-- The concrete child list of the claims: weights 0.15/0.15/0.3/0.4 with child
percents 1.0/1.0/0.8/0.9 (spec section 8 example). -/
def demoWeightedSections : List ((GradeSheet → GradeResult) × String × ℚ) :=
  [(constChildGrader 1, "Homework", 15/100),
   (constChildGrader 1, "Labs", 15/100),
   (constChildGrader (8/10), "Midterm", 3/10),
   (constChildGrader (9/10), "Final", 4/10)]

/-! ## Asynchronous external grading (capa/responsetypes.py, CodeResponse and
OpenEndedResponse) with the CorrectMap it writes into. -/

/-- A Python/JSON value, as produced by json.loads. -/
inductive PyVal where
  | pnull : PyVal
  | pbool (b : Bool) : PyVal
  | pnum (q : ℚ) : PyVal
  | pstr (s : String) : PyVal
  | plist (l : List PyVal) : PyVal
  | pdict (l : List (String × PyVal)) : PyVal

/-- Python dict membership/lookup for the modelled JSON objects. -/
def lookupTag (fields : List (String × PyVal)) (tag : String) : Option PyVal :=
  (fields.find? (fun p => p.1 == tag)).map (·.2)

/-- All required tags present ("for tag in [...]: if tag not in score_result"). -/
def hasTags (fields : List (String × PyVal)) (tags : List String) : Bool :=
  tags.all (fun t => (lookupTag fields t).isSome)

/-- Python truthiness of a JSON value ("correct" is used as a boolean). -/
def truthy : PyVal → Bool
  | .pnull => false
  | .pbool b => b
  | .pnum q => decide (q ≠ 0)
  | .pstr s => decide (s ≠ "")
  | .plist l => !l.isEmpty
  | .pdict l => !l.isEmpty

/-- Numeric reading of the "score" field. A non-numeric score is modelled as 0;
in Python it would flow through update_score unchanged, which no claim
exercises. -/
def pyNumVal : PyVal → ℚ
  | .pnum q => q
  | .pbool b => cond b 1 0
  | _ => 0

/-- Python int() truncation toward zero of a float/rational. -/
def pyTruncToInt (q : ℚ) : ℤ :=
  if q < 0 then ⌈q⌉ else ⌊q⌋

/-- Python int() of the JSON "score" value. int() of a non-numeric value would
raise in Python; no claim exercises that path and it is modelled as 0. -/
def pyIntCast : PyVal → ℤ
  | .pnum q => pyTruncToInt q
  | .pbool b => cond b 1 0
  | _ => 0

/-- Process one tag token (the text between < and >) against the stack of open
elements; returns the new stack and whether an element was completed. Part of
the model of the external lxml etree.fromstring well-formedness check used by
CodeResponse._parse_score_msg ("proper opening/closing tags"). -/
def xmlProcessTag (tag : List Char) (stack : List String) :
    Option (List String × Bool) :=
  match tag with
  | [] => none
  | '/' :: nameChars =>
      let name := String.mk (nameChars.takeWhile (fun c => c ≠ ' '))
      match stack with
      | top :: rest => if top == name then some (rest, true) else none
      | [] => none
  | _ =>
      let name := String.mk (tag.takeWhile (fun c => c ≠ ' ' && c ≠ '/'))
      if name = "" then none
      else if tag.getLast? = some '/' then some (stack, true)
      else some (name :: stack, false)

/-- Tag-matching scanner over the message characters: acc is the tag text
being read (none while in text), stack the open elements, saw whether some
element has been completed. -/
def xmlScan : List Char → Option (List Char) → List String → Bool → Bool
  | [], none, stack, saw => stack.isEmpty && saw
  | [], some _, _, _ => false
  | c :: rest, none, stack, saw =>
      if c = '<' then xmlScan rest (some []) stack saw
      else xmlScan rest none stack saw
  | c :: rest, some acc, stack, saw =>
      if c = '>' then
        match xmlProcessTag acc.reverse stack with
        | none => false
        | some p => xmlScan rest none p.1 (saw || p.2)
      else if c = '<' then false
      else xmlScan rest (some (c :: acc)) stack saw

/-- Model of the external lxml etree.fromstring validity check on the grader
message ("1) Make sure that the message is valid XML"): opening/closing tags
must balance and a root element must exist. -/
def xmlWf (s : String) : Bool :=
  xmlScan s.toList none [] false

/-- queuestate dict stored in a CorrectMap entry: key and submission time
(responsetypes.py lines 1277-1278). -/
structure QueueState where
  key : String
  time : String
deriving DecidableEq

/-- Modelled from the spec: one CorrectnessMap record
(spec section 3: correctness/points/message/hint/hint-mode/queue-state per
answer-id); correctmap.py itself is not under version control here. Fields not
passed to set default to None/empty as in the Python keyword defaults. -/
structure CmapEntry where
  correctness : Option String
  npoints : Option ℚ
  msg : String
  hint : String
  hintmode : Option String
  queuestate : Option QueueState
deriving DecidableEq

/-- Modelled from the spec: CorrectnessMap, a mapping from answer-id to its
record (spec section 3). -/
def CorrectMap : Type := String → Option CmapEntry

/-- A CorrectMap with no entries (CorrectMap()). -/
def CorrectMap.empty : CorrectMap := fun _ => none

/-- Modelled from the spec: CorrectMap.set replaces the whole record stored
for answer_id with the given field values (unpassed keyword arguments are the
Python defaults None/empty, hence the error paths of update_score reset
correctness and queuestate). -/
def CorrectMap.set (m : CorrectMap) (answer_id : String)
    (correctness : Option String) (npoints : Option ℚ) (msg : String)
    (hint : String) (hintmode : Option String)
    (queuestate : Option QueueState) : CorrectMap :=
  fun a =>
    if a = answer_id then
      some { correctness := correctness, npoints := npoints, msg := msg,
             hint := hint, hintmode := hintmode, queuestate := queuestate }
    else m a

/-- Modelled from the spec: CorrectMap.is_right_queuekey — true iff the
answer-id is queued (non-null queuestate) and the stored key equals the
tested one (spec section 3/4.2: a score message is applied only if its
queue_key matches the stored one). -/
def CorrectMap.is_right_queuekey (m : CorrectMap) (answer_id test_key : String) :
    Bool :=
  match m answer_id with
  | some e =>
      match e.queuestate with
      | some qs => qs.key == test_key
      | none => false
  | none => false

/-- CodeResponse._parse_score_msg (responsetypes.py lines 1331-1373). The raw
score_msg string is modelled after json.loads: none when the string is not
JSON, otherwise the parsed value. Returns (valid, correct, points, msg).
A non-string msg value, which would raise an uncaught TypeError inside
etree.fromstring in Python, is modelled as an invalid message. -/
def code_parse_score_msg (score_msg : Option PyVal) : Bool × Bool × ℚ × String :=
  match score_msg with
  | none => (false, false, 0, "")
  | some score_result =>
      match score_result with
      | .pdict fields =>
          match lookupTag fields "correct", lookupTag fields "score",
              lookupTag fields "msg" with
          | some c, some s, some (.pstr msg) =>
              if xmlWf msg then (true, truthy c, pyNumVal s, msg)
              else (false, false, 0, "")
          | _, _, _ => (false, false, 0, "")
      | _ => (false, false, 0, "")

/-- CodeResponse.update_score (responsetypes.py lines 1296-1322). The write to
self.context is omitted: it does not touch the CorrectMap. -/
def code_update_score (answer_id : String) (score_msg : Option PyVal)
    (oldcmap : CorrectMap) (queuekey : String) : CorrectMap :=
  match code_parse_score_msg score_msg with
  | (valid_score_msg, correct, points, msg) =>
    if !valid_score_msg then
      oldcmap.set answer_id none none
        "Invalid grader reply. Please contact the course staff." "" none none
    else
      let correctness := if correct then "correct" else "incorrect"
      if oldcmap.is_right_queuekey answer_id queuekey then
        let points := if points < 0 then (0 : ℚ) else points
        oldcmap.set answer_id (some correctness) (some points)
          (msg.replace "&nbsp;" "&#160;") "" none none
      else oldcmap

/-- The queueing tail of CodeResponse.get_score (responsetypes.py lines
1276-1294): after send_to_queue returned (send_error, send_msg), build the
CorrectMap recording either the delivery failure or the queued state. -/
def code_get_score_queueing (answer_id queuekey qtime : String)
    (send_error : Bool) (send_msg : String) : CorrectMap :=
  let queuestate : Option QueueState := some { key := queuekey, time := qtime }
  let cmap := CorrectMap.empty
  if send_error then
    cmap.set answer_id none none
      ("Unable to deliver your submission to grader. (Reason: " ++ send_msg ++
        ".) Please try again later.") "" none none
  else
    cmap.set answer_id (some "incomplete") none send_msg "" none queuestate

/-- ScoreMessage record returned by OpenEndedResponse._parse_score_msg. -/
structure ScoreMessage where
  valid : Bool
  correct : Bool
  points : ℚ
  msg : String

/-- Modelled from the spec: the feedback html assembled by
OpenEndedResponse._format_feedback through external Django templates; its text
is display-only and no claim reads it. -/
def oe_format_feedback (_fields : List (String × PyVal)) : String :=
  "rendered feedback"

/-- OpenEndedResponse._parse_score_msg (responsetypes.py lines 2175-2219):
requires the six tags, renders feedback, and computes
score_ratio = int(score) / max_score with Python 2 integer (floor) division
since max_score is an int (line 1921); correct iff score_ratio >= 0.66. -/
def oe_parse_score_msg (max_score : ℤ) (score_msg : Option PyVal) :
    ScoreMessage :=
  match score_msg with
  | none => { valid := false, correct := false, points := 0, msg := "" }
  | some score_result =>
      match score_result with
      | .pdict fields =>
          if hasTags fields
              ["score", "feedback", "grader_type", "success", "grader_id",
               "submission_id"] then
            let feedback := oe_format_feedback fields
            let score_val := (lookupTag fields "score").getD .pnull
            let score_ratio : ℤ := (pyIntCast score_val).fdiv max_score
            let correct := decide ((66 / 100 : ℚ) ≤ (score_ratio : ℚ))
            { valid := true, correct := correct,
              points := pyNumVal score_val, msg := feedback }
          else { valid := false, correct := false, points := 0, msg := "" }
      | _ => { valid := false, correct := false, points := 0, msg := "" }

/-- OpenEndedResponse.update_score (responsetypes.py lines 2039-2067). -/
def oe_update_score (max_score : ℤ) (answer_id : String)
    (score_msg : Option PyVal) (oldcmap : CorrectMap) (queuekey : String) :
    CorrectMap :=
  let m := oe_parse_score_msg max_score score_msg
  if !m.valid then
    oldcmap.set answer_id none none
      "Invalid grader reply. Please contact the course staff." "" none none
  else
    let correctness := if m.correct then "correct" else "incorrect"
    if oldcmap.is_right_queuekey answer_id queuekey then
      let points := if m.points < 0 then (0 : ℚ) else m.points
      oldcmap.set answer_id (some correctness) (some points)
        (m.msg.replace "&nbsp;" "&#160;") "" none none
    else oldcmap

/-- The queueing tail of OpenEndedResponse.get_score (responsetypes.py lines
2014-2037): identical delivery-failure/queued handling as CodeResponse. -/
def oe_get_score_queueing (answer_id queuekey qtime : String)
    (send_error : Bool) (send_msg : String) : CorrectMap :=
  let queuestate : Option QueueState := some { key := queuekey, time := qtime }
  let cmap := CorrectMap.empty
  if send_error then
    cmap.set answer_id none none
      ("Unable to deliver your submission to grader. (Reason: " ++ send_msg ++
        ".) Please try again later.") "" none none
  else
    cmap.set answer_id (some "incomplete") none send_msg "" none queuestate

/-- A CorrectMap holding one queued entry under answer-id a1 with stored
queue key k1: the concrete starting state for the async-grading claims. -/
def demoQueuedCmap : CorrectMap :=
  CorrectMap.empty.set "a1" (some "incomplete") none "1" "" none
    (some { key := "k1", time := "t0" })

/-- A well-formed grader reply as CodeResponse expects it. -/
def demoCodeReply : PyVal :=
  .pdict [("correct", .pbool true), ("score", .pnum 1),
          ("msg", .pstr "<p>good job</p>")]

/-- A structurally valid open-ended grader reply scoring 2 (of max_score 3). -/
def demoOeReply : List (String × PyVal) :=
  [("score", .pnum 2), ("feedback", .pstr "fb"), ("grader_type", .pstr "ML"),
   ("success", .pbool true), ("grader_id", .pnum 1),
   ("submission_id", .pnum 1)]

/-! ## Formula and numerical grading (FormulaResponse.check_formula and
NumericalResponse.get_score, responsetypes.py). The restricted expression
evaluator (calc.py) and compare_with_tolerance (util.py) are not under src/
and are modelled from the spec. -/

/-- A Python float value: finite rational, the two infinities, or NaN. -/
inductive PyFloat where
  | fin (q : ℚ) : PyFloat
  | inf : PyFloat
  | ninf : PyFloat
  | nan : PyFloat
deriving DecidableEq

/-- Magnitudes at or above this bound overflow to the infinities
(the IEEE double range ends just below 2^1024). -/
def floatOverflowBound : ℚ := 2 ^ 1024

/-- Clamp an exact rational into the float domain, overflowing to +-Inf. -/
def ovf (q : ℚ) : PyFloat :=
  if floatOverflowBound ≤ q then .inf
  else if q ≤ -floatOverflowBound then .ninf
  else .fin q

/-- Float negation. -/
def pfNeg : PyFloat → PyFloat
  | .fin q => .fin (-q)
  | .inf => .ninf
  | .ninf => .inf
  | .nan => .nan

/-- Float addition with the IEEE special-value rules. -/
def pfAdd : PyFloat → PyFloat → PyFloat
  | .nan, _ => .nan
  | _, .nan => .nan
  | .fin a, .fin b => ovf (a + b)
  | .fin _, .inf => .inf
  | .inf, .fin _ => .inf
  | .inf, .inf => .inf
  | .fin _, .ninf => .ninf
  | .ninf, .fin _ => .ninf
  | .ninf, .ninf => .ninf
  | .inf, .ninf => .nan
  | .ninf, .inf => .nan

/-- Float subtraction. -/
def pfSub (a b : PyFloat) : PyFloat := pfAdd a (pfNeg b)

/-- Float multiplication with the IEEE special-value rules. -/
def pfMul : PyFloat → PyFloat → PyFloat
  | .nan, _ => .nan
  | _, .nan => .nan
  | .fin a, .fin b => ovf (a * b)
  | .fin a, .inf => if a = 0 then .nan else if 0 < a then .inf else .ninf
  | .inf, .fin b => if b = 0 then .nan else if 0 < b then .inf else .ninf
  | .fin a, .ninf => if a = 0 then .nan else if 0 < a then .ninf else .inf
  | .ninf, .fin b => if b = 0 then .nan else if 0 < b then .ninf else .inf
  | .inf, .inf => .inf
  | .ninf, .ninf => .inf
  | .inf, .ninf => .ninf
  | .ninf, .inf => .ninf

/-- Float absolute value. -/
def pfAbs : PyFloat → PyFloat
  | .fin q => .fin |q|
  | .inf => .inf
  | .ninf => .inf
  | .nan => .nan

/-- Float comparison; NaN compares false against everything. -/
def pfLe : PyFloat → PyFloat → Bool
  | .nan, _ => false
  | _, .nan => false
  | .fin a, .fin b => decide (a ≤ b)
  | .ninf, _ => true
  | _, .inf => true
  | .inf, .fin _ => false
  | .inf, .ninf => false
  | .fin _, .ninf => false

/-- Python max over two floats. -/
def pfMax (a b : PyFloat) : PyFloat := if pfLe a b then b else a

/-- numpy.isnan. -/
def pfIsNan : PyFloat → Bool
  | .nan => true
  | _ => false

/-- numpy.isinf (true for either infinity). -/
def pfIsInf : PyFloat → Bool
  | .inf => true
  | .ninf => true
  | _ => false

/-- Errors the expression evaluator can raise: calc.UndefinedVariable for an
unknown variable, ZeroDivisionError for division by zero. -/
inductive EvalErr where
  | undefinedVariable (name : String) : EvalErr
  | zeroDivision : EvalErr
deriving DecidableEq

/-- Float division; division by the zero float raises ZeroDivisionError. -/
def pfDiv : PyFloat → PyFloat → Except EvalErr PyFloat
  | .nan, _ => .ok .nan
  | _, .nan => .ok .nan
  | .fin a, .fin b =>
      if b = 0 then .error .zeroDivision else .ok (ovf (a / b))
  | .fin _, .inf => .ok (.fin 0)
  | .fin _, .ninf => .ok (.fin 0)
  | .inf, .fin b =>
      if b = 0 then .error .zeroDivision
      else if 0 < b then .ok .inf else .ok .ninf
  | .ninf, .fin b =>
      if b = 0 then .error .zeroDivision
      else if 0 < b then .ok .ninf else .ok .inf
  | .inf, .inf => .ok .nan
  | .inf, .ninf => .ok .nan
  | .ninf, .inf => .ok .nan
  | .ninf, .ninf => .ok .nan

/-- Modelled from the spec: the abstract syntax of the restricted expression
grammar of the sandboxed evaluator (calc.py is not under src/; spec section
4.1/9: "a restricted expression grammar (no arbitrary code execution)"). -/
inductive FExpr where
  | num (q : ℚ) : FExpr
  | var (name : String) : FExpr
  | add (a b : FExpr) : FExpr
  | sub (a b : FExpr) : FExpr
  | mul (a b : FExpr) : FExpr
  | div (a b : FExpr) : FExpr
  | neg (a : FExpr) : FExpr
deriving DecidableEq

/-- Modelled from the spec: the sandboxed expression evaluator over a
variable environment; an unknown variable raises UndefinedVariable
(spec section 4.1: "undefined variable => StudentInputError"). -/
def evalExpr (env : String → Option ℚ) : FExpr → Except EvalErr PyFloat
  | .num q => .ok (.fin q)
  | .var v =>
      match env v with
      | some q => .ok (.fin q)
      | none => .error (.undefinedVariable v)
  | .add a b =>
      match evalExpr env a, evalExpr env b with
      | .ok x, .ok y => .ok (pfAdd x y)
      | .error e, _ => .error e
      | _, .error e => .error e
  | .sub a b =>
      match evalExpr env a, evalExpr env b with
      | .ok x, .ok y => .ok (pfSub x y)
      | .error e, _ => .error e
      | _, .error e => .error e
  | .mul a b =>
      match evalExpr env a, evalExpr env b with
      | .ok x, .ok y => .ok (pfMul x y)
      | .error e, _ => .error e
      | _, .error e => .error e
  | .div a b =>
      match evalExpr env a, evalExpr env b with
      | .ok x, .ok y => pfDiv x y
      | .error e, _ => .error e
      | _, .error e => .error e
  | .neg a =>
      match evalExpr env a with
      | .ok x => .ok (pfNeg x)
      | .error e => .error e

/-- A tolerance, already parsed: "x%" forms have relative true and value x,
plain numeric forms have relative false. -/
structure Tolerance where
  relative : Bool
  val : ℚ
deriving DecidableEq

/-- Modelled from the spec: compare_with_tolerance (capa/util.py is not under
src/; spec section 4.1: "within an absolute-or-relative tolerance (supports
x% or absolute forms)"); a relative tolerance scales by the larger magnitude
of the two compared values. -/
def compare_with_tolerance (v1 v2 : PyFloat) (tol : Tolerance) : Bool :=
  let tolerance : PyFloat :=
    if tol.relative then
      pfMul (.fin (tol.val * (1 / 100))) (pfMax (pfAbs v1) (pfAbs v2))
    else .fin tol.val
  pfLe (pfAbs (pfSub v1 v2)) tolerance

/-- A parsed samples attribute ("m,c@1,2:3,4#10" parsing at responsetypes.py
lines 1616-1621): the declared variable names and the sample count. The
numeric ranges only feed random.uniform, which is modelled by the sampler
argument of check_formula. -/
structure SampleSpec where
  var_names : List String
  numsamples : ℕ

/-- student_variables of one sample: exactly the declared variables, valued by
the sampler (responsetypes.py lines 1624-1629). -/
def sampleEnv (spec : SampleSpec) (sampler : ℕ → String → ℚ) (i : ℕ) :
    String → Option ℚ :=
  fun v => if spec.var_names.contains v then some (sampler i v) else none

/-- instructor_variables of one sample: the stripped script context, with the
sampled variables overriding it (responsetypes.py lines 1623-1628). -/
def instructorEnv (context : List (String × ℚ)) (spec : SampleSpec)
    (sampler : ℕ → String → ℚ) (i : ℕ) : String → Option ℚ :=
  fun v =>
    if spec.var_names.contains v then some (sampler i v)
    else (context.find? (fun p => p.1 == v)).map (·.2)

/-- Failure modes of check_formula: an exception from the unguarded instructor
evaluation propagates as-is; student-side failures become StudentInputError. -/
inductive FormulaErr where
  | instructorError (e : EvalErr) : FormulaErr
  | studentInput (msg : String) : FormulaErr
deriving DecidableEq

/-- The sampling loop of FormulaResponse.check_formula (responsetypes.py lines
1622-1651): i is the current sample index, the second argument the number of
samples still to run. Returns "correct" only if every sample agrees within
tolerance; NaN/Inf in the student result or a tolerance failure returns
"incorrect"; student evaluation errors raise StudentInputError. -/
def check_formula_loop (tol : Tolerance) (context : List (String × ℚ))
    (expected given : FExpr) (spec : SampleSpec)
    (sampler : ℕ → String → ℚ) : ℕ → ℕ → Except FormulaErr String
  | _, 0 => .ok "correct"
  | i, k + 1 =>
      match evalExpr (instructorEnv context spec sampler i) expected with
      | .error e => .error (.instructorError e)
      | .ok instructor_result =>
          match evalExpr (sampleEnv spec sampler i) given with
          | .error (.undefinedVariable v) =>
              .error (.studentInput
                ("Invalid input: " ++ v ++ " not permitted in answer"))
          | .error _ =>
              .error (.studentInput "Invalid input: Could not parse formula")
          | .ok student_result =>
              if pfIsNan student_result || pfIsInf student_result then
                .ok "incorrect"
              else if !compare_with_tolerance student_result instructor_result
                  tol then
                .ok "incorrect"
              else check_formula_loop tol context expected given spec sampler
                (i + 1) k

/-- FormulaResponse.check_formula (responsetypes.py lines 1615-1651), over the
parsed samples attribute; the sampler stands for random.uniform over the
declared ranges. -/
def check_formula (tol : Tolerance) (context : List (String × ℚ))
    (expected given : FExpr) (spec : SampleSpec)
    (sampler : ℕ → String → ℚ) : Except FormulaErr String :=
  check_formula_loop tol context expected given spec sampler 0 spec.numsamples

/-- Error outcomes of NumericalResponse.get_score; StudentInputError is the
recoverable kind shown inline to the student, LoncapaProblemError the fatal
kind. -/
inductive GradeErr where
  | studentInput (msg : String) : GradeErr
  | loncapaProblem (msg : String) : GradeErr
deriving DecidableEq

/-- NumericalResponse.get_score (responsetypes.py lines 757-784). The staff
answer is modelled after complex() parsing (none = ValueError); the student
answer after the expression parser (none = unparseable string), evaluated in
an empty environment; the bare except re-raises every evaluator failure as
StudentInputError. -/
def numerical_get_score (correct_answer : Option ℚ) (tol : Tolerance)
    (student_answer : Option FExpr) : Except GradeErr String :=
  match correct_answer with
  | none =>
      .error (.studentInput
        "There was a problem with the staff answer to this problem")
  | some correct_ans =>
      let studentEval : Except EvalErr PyFloat :=
        match student_answer with
        | none => .error (.undefinedVariable "")
        | some e => evalExpr (fun _ => none) e
      match studentEval with
      | .error _ =>
          .error (.studentInput
            "Invalid input: could not interpret answer as a number")
      | .ok v =>
          if compare_with_tolerance v (.fin correct_ans) tol then .ok "correct"
          else .ok "incorrect"

/-- A student expression whose square overflows the float range: its
evaluation yields Inf at every sample. -/
def overflowExpr : FExpr := .mul (.num (2 ^ 600)) (.num (2 ^ 600))

/-! ## Image-region grading (ImageResponse.get_score, responsetypes.py lines
1763-1812), for one imageinput field after the regexes have parsed the click
"[x,y]" (nonnegative integers) and the rectangle attribute
"(llx,lly)-(urx,ury)" strings. -/

/-- One parsed solution rectangle. -/
structure Rect where
  llx : ℤ
  lly : ℤ
  urx : ℤ
  ury : ℤ
deriving DecidableEq

/-- The inclusive rectangle test of line 1795:
(llx <= gx <= urx) and (lly <= gy <= ury). -/
def inRectangle (r : Rect) (gx gy : ℤ) : Bool :=
  decide (r.llx ≤ gx) && decide (gx ≤ r.urx) &&
    decide (r.lly ≤ gy) && decide (gy ≤ r.ury)

/-- Planar cross product of (a - o) and (b - o). -/
def cross (o a b : ℤ × ℤ) : ℤ :=
  (a.1 - o.1) * (b.2 - o.2) - (a.2 - o.2) * (b.1 - o.1)

/-- p lies on the closed segment from a to b. -/
def onSegment (a b p : ℤ × ℤ) : Bool :=
  decide (cross a b p = 0) &&
    decide (min a.1 b.1 ≤ p.1) && decide (p.1 ≤ max a.1 b.1) &&
    decide (min a.2 b.2 ≤ p.2) && decide (p.2 ≤ max a.2 b.2)

/-- p lies in the closed triangle abc (degenerate triangles reduce to their
segments). -/
def inTriangle (a b c p : ℤ × ℤ) : Bool :=
  if cross a b c ≠ 0 then
    (decide (0 ≤ cross a b p) && decide (0 ≤ cross b c p) &&
      decide (0 ≤ cross c a p)) ||
    (decide (cross a b p ≤ 0) && decide (cross b c p ≤ 0) &&
      decide (cross c a p ≤ 0))
  else onSegment a b p || onSegment b c p || onSegment a c p

/-- p lies in the closed convex hull of the points: by Caratheodory in the
plane, inside some (possibly degenerate) triangle of region points. -/
def inConvexHull (pts : List (ℤ × ℤ)) (p : ℤ × ℤ) : Bool :=
  pts.any (fun a => pts.any (fun b => pts.any (fun c => inTriangle a b c p)))

/-- The convex hull spans two dimensions (shapely hull type Polygon): some
three region points are not collinear. -/
def isPolygonHull (pts : List (ℤ × ℤ)) : Bool :=
  pts.any (fun a => pts.any (fun b => pts.any (fun c =>
    decide (cross a b c ≠ 0))))

/-- p is strictly on the positive side of every directed supporting line uv
(a pair of distinct region points with the whole region weakly on its
positive side). -/
def supportingStrict (pts : List (ℤ × ℤ)) (p : ℤ × ℤ) : Bool :=
  pts.all (fun u => pts.all (fun v =>
    if u = v then true
    else if pts.all (fun s => decide (0 ≤ cross u v s)) then
      decide (0 < cross u v p)
    else true))

/-- Model of the external shapely test
polygon.type == Polygon and polygon.contains(Point(gx, gy)) of lines
1807-1809: the hull is two-dimensional and the point is interior to it
(in the closed hull and strictly inside every supporting half-plane). -/
def hullContainsStrict (pts : List (ℤ × ℤ)) (p : ℤ × ℤ) : Bool :=
  isPolygonHull pts && inConvexHull pts p && supportingStrict pts p

/-- The body of the ImageResponse.get_score loop for one answer-id
(responsetypes.py lines 1768-1811): default incorrect, rectangles checked
first as the fast path with inclusive bounds, then the region hulls; regions
are given post json.loads with the single-region shorthand already wrapped. -/
def imageResponseScoreOne (rectangles : List Rect)
    (regions : List (List (ℤ × ℤ))) (gx gy : ℤ) : String :=
  let afterRect :=
    if rectangles.any (fun r => inRectangle r gx gy) then "correct"
    else "incorrect"
  if (afterRect != "correct") && !regions.isEmpty then
    if regions.any (fun region => hullContainsStrict region (gx, gy)) then
      "correct"
    else afterRect
  else afterRect

/-! ## DragAndDrop compare_positions. draganddrop.py is not under src/; the
matcher rules are modelled from spec section 4.3, with the direction of the
anyof rule fixed by the in-repo tests (tests_draganddrop.py tests 3/4/6/7 of
Test_DraAndDrop_Compare_Positions: every user element must match some correct
element, so extra user elements fail). -/

/-- One element of a compare_positions list: a target id, a plain [x,y]
position, or an author [[x,y],r] circle. -/
inductive DndItem where
  | target (s : String) : DndItem
  | pos (x y : ℚ) : DndItem
  | circle (x y r : ℚ) : DndItem
deriving DecidableEq

/-- Modelled from the spec: PositionsCompare equality (spec section 4.3):
target ids compare as strings; positions are equal when within the fixed
10-pixel radius, or within an author circle radius (squared distances, so no
square roots are needed); ids never equal positions. -/
def dndEq : DndItem → DndItem → Bool
  | .target a, .target b => a == b
  | .pos x1 y1, .pos x2 y2 =>
      decide ((x1 - x2) ^ 2 + (y1 - y2) ^ 2 ≤ 100)
  | .circle x1 y1 r, .pos x2 y2 =>
      decide ((x1 - x2) ^ 2 + (y1 - y2) ^ 2 ≤ r ^ 2)
  | .pos x1 y1, .circle x2 y2 r =>
      decide ((x1 - x2) ^ 2 + (y1 - y2) ^ 2 ≤ r ^ 2)
  | .circle x1 y1 r1, .circle x2 y2 r2 =>
      decide ((x1 - x2) ^ 2 + (y1 - y2) ^ 2 ≤ max r1 r2 ^ 2)
  | _, _ => false

/-- Modelled from the spec: DragAndDrop.compare_positions (spec section 4.3):
exact is ordered element-wise equality; anyof requires every user element to
match a correct element (direction fixed by the in-repo tests); unordered_equal
compares the two lists as sets, ignoring duplicates; the +number variants
additionally require the user count to equal the correct count; an unknown
rule fails. -/
def compare_positions (correct user : List DndItem) (flag : String) : Bool :=
  if flag = "exact" then
    correct.length == user.length &&
      (List.zip user correct).all (fun p => dndEq p.1 p.2)
  else if flag = "anyof" then
    user.all (fun u => correct.any (fun c => dndEq u c))
  else if flag = "unordered_equal" then
    user.all (fun u => correct.any (fun c => dndEq u c)) &&
      correct.all (fun c => user.any (fun u => dndEq u c))
  else if flag = "anyof+number" then
    (user.length == correct.length) &&
      user.all (fun u => correct.any (fun c => dndEq u c))
  else if flag = "unordered_equal+number" then
    (user.length == correct.length) &&
      (user.all (fun u => correct.any (fun c => dndEq u c)) &&
        correct.all (fun c => user.any (fun u => dndEq u c)))
  else false

/-! ## Theorems -/

/-- Helper: closed form of the weighted-subsections fold. -/
theorem WeightedSubsectionsGrader.foldl_step_spec (grade_sheet : GradeSheet)
    (sections : List ((GradeSheet → GradeResult) × String × ℚ))
    (t : ℚ) (sb : List BreakdownItem) (gb : List GradeBreakdownItem) :
    sections.foldl (WeightedSubsectionsGrader.step grade_sheet) (t, sb, gb) =
      (t + (sections.map (fun s => (s.1 grade_sheet).percent * s.2.2)).sum,
       sb ++ (sections.map (fun s => (s.1 grade_sheet).section_breakdown)).flatten,
       gb ++ sections.map (fun s =>
         { percent := (s.1 grade_sheet).percent * s.2.2
           detail := s.2.1 ++ " = " ++
             pctText ((s.1 grade_sheet).percent * s.2.2) ++
             " of a possible " ++ pctText s.2.2
           category := s.2.1 })) := by
  induction sections generalizing t sb gb with
  | nil => simp
  | cons s rest ih =>
      simp only [List.foldl_cons, WeightedSubsectionsGrader.step, List.map_cons,
        List.sum_cons, List.flatten_cons, ih, List.append_assoc,
        List.singleton_append, add_assoc]

/-- C5: WeightedSubsectionsGrader.grade returns as percent the un-normalized
sum over children of child percent times child weight (no rescaling of weights),
concatenates all child section_breakdowns, and emits exactly one grade_breakdown
row per child; on children weighted 0.15/0.15/0.3/0.4 with subgrades
1.0/1.0/0.8/0.9 the percent is exactly 0.90. -/
theorem weighted_subsections_grader_spec :
    (∀ (sections : List ((GradeSheet → GradeResult) × String × ℚ))
      (sheet : GradeSheet),
      (WeightedSubsectionsGrader.grade sections sheet).percent
        = (sections.map (fun s => (s.1 sheet).percent * s.2.2)).sum
      ∧ (WeightedSubsectionsGrader.grade sections sheet).section_breakdown
        = (sections.map (fun s => (s.1 sheet).section_breakdown)).flatten
      ∧ (WeightedSubsectionsGrader.grade sections sheet).grade_breakdown.length
        = sections.length)
    ∧ (WeightedSubsectionsGrader.grade demoWeightedSections []).percent
        = 9/10 := by
  constructor
  · intro sections sheet
    simp [WeightedSubsectionsGrader.grade,
      WeightedSubsectionsGrader.foldl_step_spec]
  · simp [WeightedSubsectionsGrader.grade, WeightedSubsectionsGrader.step,
      demoWeightedSections, constChildGrader]
    norm_num

/-- C4: with profile-score generation disabled, AssignmentFormatGrader.grade
with min_count=4 and drop_count=1 on three matching sections scoring
0.9/0.5/0.7 pads the breakdown with a fourth zero-percent placeholder, drops
exactly that placeholder (the single lowest percent), averages the remaining
three to 0.70, and appends a prominent synthetic average row. -/
theorem assignment_format_grader_pads_drops_averages :
    (AssignmentFormatGrader.grade
        ⟨"Homework", 4, 1, "Homework", "Homework", "HW"⟩
        [("Homework",
          [⟨9/10, 1, true, "h1"⟩, ⟨1/2, 1, true, "h2"⟩,
           ⟨7/10, 1, true, "h3"⟩])]).percent = 7/10
    ∧ (AssignmentFormatGrader.grade
        ⟨"Homework", 4, 1, "Homework", "Homework", "HW"⟩
        [("Homework",
          [⟨9/10, 1, true, "h1"⟩, ⟨1/2, 1, true, "h2"⟩,
           ⟨7/10, 1, true, "h3"⟩])]).section_breakdown.map
        (fun b => (b.percent, b.mark.isSome, b.prominent, b.label)) =
      [(9/10, false, false, "HW 01"), (1/2, false, false, "HW 02"),
       (7/10, false, false, "HW 03"), (0, true, false, "HW 04"),
       (7/10, false, true, "HW Avg")] := by
  have hrange : List.range 4 = [0, 1, 2, 3] := by decide
  constructor
  · norm_num [AssignmentFormatGrader.grade, AssignmentFormatGrader.breakdownRow,
      GradeSheet.getFormat, totalWithDrops, stableSort, insertStable, takeLast,
      List.enum, hrange, pad2]
  · norm_num [AssignmentFormatGrader.grade, AssignmentFormatGrader.breakdownRow,
      GradeSheet.getFormat, totalWithDrops, stableSort, insertStable, takeLast,
      List.enum, hrange, pad2]
    decide

/-- C1 counterexample: a malformed score message (not JSON) sent with a
non-matching queuekey still overwrites the stored entry for the answer-id
with an Invalid-grader-reply record, because both update_score
implementations call set before checking the queuekey. -/
theorem update_score_malformed_mismatch_alters_entry :
    (code_update_score "a1" none demoQueuedCmap "wrongkey") "a1"
      ≠ demoQueuedCmap "a1"
    ∧ (oe_update_score 3 "a1" none demoQueuedCmap "wrongkey") "a1"
      ≠ demoQueuedCmap "a1" := by
  constructor <;> decide

/-- C1 (amended): for a score message that parses as valid, update_score with
a queuekey that does not match the stored queue-state key returns the
CorrectMap unchanged, for both CodeResponse and OpenEndedResponse. -/
theorem update_score_valid_mismatch_leaves_cmap_unchanged
    (answer_id queuekey : String) (score_msg : Option PyVal)
    (oldcmap : CorrectMap) (e : CmapEntry) (qs : QueueState)
    (hentry : oldcmap answer_id = some e) (hqs : e.queuestate = some qs)
    (hkey : qs.key ≠ queuekey) :
    ((code_parse_score_msg score_msg).1 = true →
      code_update_score answer_id score_msg oldcmap queuekey = oldcmap)
    ∧ (∀ max_score : ℤ,
      (oe_parse_score_msg max_score score_msg).valid = true →
      oe_update_score max_score answer_id score_msg oldcmap queuekey
        = oldcmap) := by
  have hq : oldcmap.is_right_queuekey answer_id queuekey = false := by
    simp [CorrectMap.is_right_queuekey, hentry, hqs, hkey]
  constructor
  · intro hvalid
    rcases hp : code_parse_score_msg score_msg with ⟨v, c, p, m⟩
    rw [hp] at hvalid
    simp only at hvalid
    simp [code_update_score, hp, hvalid, hq]
  · intro max_score hvalid
    simp [oe_update_score, hvalid, hq]

/-- C1 witness: a concrete valid reply with a wrong key leaves the concrete
queued CorrectMap untouched, for both response types. -/
theorem update_score_valid_mismatch_witness :
    code_update_score "a1" (some demoCodeReply) demoQueuedCmap "wrongkey"
      = demoQueuedCmap
    ∧ oe_update_score 3 "a1" (some (.pdict demoOeReply)) demoQueuedCmap
        "wrongkey" = demoQueuedCmap := by
  constructor
  · exact (update_score_valid_mismatch_leaves_cmap_unchanged "a1" "wrongkey"
      (some demoCodeReply) demoQueuedCmap
      { correctness := some "incomplete", npoints := none, msg := "1",
        hint := "", hintmode := none,
        queuestate := some { key := "k1", time := "t0" } }
      { key := "k1", time := "t0" } rfl rfl (by decide)).1 (by decide)
  · exact (update_score_valid_mismatch_leaves_cmap_unchanged "a1" "wrongkey"
      (some (.pdict demoOeReply)) demoQueuedCmap
      { correctness := some "incomplete", npoints := none, msg := "1",
        hint := "", hintmode := none,
        queuestate := some { key := "k1", time := "t0" } }
      { key := "k1", time := "t0" } rfl rfl (by decide)).2 3 rfl

/-- C2: applying a valid score message whose queuekey matches the stored
queue-state is idempotent: the first call stores correctness and (clamped)
points and nulls the queuestate, and the second identical call is a no-op
because the key no longer matches, for both response types. -/
theorem update_score_matching_key_idempotent
    (answer_id queuekey : String) (score_msg : Option PyVal)
    (oldcmap : CorrectMap) (e : CmapEntry) (qs : QueueState)
    (hentry : oldcmap answer_id = some e) (hqs : e.queuestate = some qs)
    (hkey : qs.key = queuekey) :
    ((code_parse_score_msg score_msg).1 = true →
      (∃ e1, (code_update_score answer_id score_msg oldcmap queuekey) answer_id
          = some e1
        ∧ e1.correctness = some (if (code_parse_score_msg score_msg).2.1
            then "correct" else "incorrect")
        ∧ e1.npoints = some (if (code_parse_score_msg score_msg).2.2.1 < 0
            then 0 else (code_parse_score_msg score_msg).2.2.1)
        ∧ e1.queuestate = none)
      ∧ code_update_score answer_id score_msg
          (code_update_score answer_id score_msg oldcmap queuekey) queuekey
        = code_update_score answer_id score_msg oldcmap queuekey)
    ∧ (∀ max_score : ℤ,
      (oe_parse_score_msg max_score score_msg).valid = true →
      (∃ e1, (oe_update_score max_score answer_id score_msg oldcmap queuekey)
            answer_id = some e1
        ∧ e1.correctness = some (if (oe_parse_score_msg max_score score_msg).correct
            then "correct" else "incorrect")
        ∧ e1.npoints = some (if (oe_parse_score_msg max_score score_msg).points < 0
            then 0 else (oe_parse_score_msg max_score score_msg).points)
        ∧ e1.queuestate = none)
      ∧ oe_update_score max_score answer_id score_msg
          (oe_update_score max_score answer_id score_msg oldcmap queuekey)
          queuekey
        = oe_update_score max_score answer_id score_msg oldcmap queuekey) := by
  have hq : oldcmap.is_right_queuekey answer_id queuekey = true := by
    simp [CorrectMap.is_right_queuekey, hentry, hqs, hkey]
  constructor
  · intro hvalid
    rcases hp : code_parse_score_msg score_msg with ⟨v, c, p, m⟩
    rw [hp] at hvalid
    simp only at hvalid
    subst hvalid
    have hfirst : (code_update_score answer_id score_msg oldcmap queuekey)
        answer_id = some
          { correctness := some (if c then "correct" else "incorrect")
            npoints := some (if p < 0 then 0 else p)
            msg := m.replace "&nbsp;" "&#160;"
            hint := ""
            hintmode := none
            queuestate := none } := by
      simp [code_update_score, hp, hq, CorrectMap.set]
    constructor
    · exact ⟨_, hfirst, by simp [hp], by simp [hp], rfl⟩
    · have hq2 : (code_update_score answer_id score_msg oldcmap
          queuekey).is_right_queuekey answer_id queuekey = false := by
        simp [CorrectMap.is_right_queuekey, hfirst]
      have key : ∀ c1 : CorrectMap,
          c1.is_right_queuekey answer_id queuekey = false →
          code_update_score answer_id score_msg c1 queuekey = c1 := by
        intro c1 h1
        simp [code_update_score, hp, h1]
      exact key _ hq2
  · intro max_score hvalid
    have hfirst : (oe_update_score max_score answer_id score_msg oldcmap
        queuekey) answer_id = some
          { correctness := some (if (oe_parse_score_msg max_score
              score_msg).correct then "correct" else "incorrect")
            npoints := some (if (oe_parse_score_msg max_score score_msg).points
              < 0 then 0 else (oe_parse_score_msg max_score score_msg).points)
            msg := ((oe_parse_score_msg max_score score_msg).msg).replace
              "&nbsp;" "&#160;"
            hint := ""
            hintmode := none
            queuestate := none } := by
      simp [oe_update_score, hvalid, hq, CorrectMap.set]
    constructor
    · exact ⟨_, hfirst, rfl, rfl, rfl⟩
    · have hq2 : (oe_update_score max_score answer_id score_msg oldcmap
          queuekey).is_right_queuekey answer_id queuekey = false := by
        simp [CorrectMap.is_right_queuekey, hfirst]
      have key : ∀ c1 : CorrectMap,
          c1.is_right_queuekey answer_id queuekey = false →
          oe_update_score max_score answer_id score_msg c1 queuekey = c1 := by
        intro c1 h1
        simp [oe_update_score, hvalid, h1]
      exact key _ hq2

/-- C2 witness: the concrete valid replies applied twice at the stored key k1
of the demo CorrectMap reach a fixpoint after the first application. -/
theorem update_score_matching_key_idempotent_witness :
    code_update_score "a1" (some demoCodeReply)
        (code_update_score "a1" (some demoCodeReply) demoQueuedCmap "k1") "k1"
      = code_update_score "a1" (some demoCodeReply) demoQueuedCmap "k1"
    ∧ oe_update_score 3 "a1" (some (.pdict demoOeReply))
        (oe_update_score 3 "a1" (some (.pdict demoOeReply)) demoQueuedCmap
          "k1") "k1"
      = oe_update_score 3 "a1" (some (.pdict demoOeReply)) demoQueuedCmap
          "k1" := by
  constructor
  · exact ((update_score_matching_key_idempotent "a1" "k1"
      (some demoCodeReply) demoQueuedCmap
      { correctness := some "incomplete", npoints := none, msg := "1",
        hint := "", hintmode := none,
        queuestate := some { key := "k1", time := "t0" } }
      { key := "k1", time := "t0" } rfl rfl rfl).1 (by decide)).2
  · exact ((update_score_matching_key_idempotent "a1" "k1"
      (some (.pdict demoOeReply)) demoQueuedCmap
      { correctness := some "incomplete", npoints := none, msg := "1",
        hint := "", hintmode := none,
        queuestate := some { key := "k1", time := "t0" } }
      { key := "k1", time := "t0" } rfl rfl rfl).2 3 rfl).2

/-- C3 counterexample: on a transport error, get_score records the retry-later
message but leaves correctness unset (None), not incomplete — the incomplete
flag is set only on successful queueing. -/
theorem get_score_transport_error_not_incomplete :
    ((code_get_score_queueing "a1" "k1" "t0" true "timeout") "a1").map
        CmapEntry.correctness = some none
    ∧ some (none : Option String) ≠ some (some "incomplete")
    ∧ ((oe_get_score_queueing "a1" "k1" "t0" true "timeout") "a1").map
        CmapEntry.correctness = some none := by
  refine ⟨by decide, by decide, by decide⟩

/-- C3 (amended): whenever the queue interface reports a transport error,
both get_score implementations still return (rather than raise) a CorrectMap
whose entry for the answer-id carries the retry-later failure message with a
null queuestate, and whose correctness is left unset (None) rather than
incomplete. -/
theorem get_score_transport_error_returns_entry
    (answer_id queuekey qtime send_msg : String) :
    (code_get_score_queueing answer_id queuekey qtime true send_msg) answer_id
      = some ⟨none, none,
          "Unable to deliver your submission to grader. (Reason: " ++
            send_msg ++ ".) Please try again later.", "", none, none⟩
    ∧ (oe_get_score_queueing answer_id queuekey qtime true send_msg) answer_id
      = some ⟨none, none,
          "Unable to deliver your submission to grader. (Reason: " ++
            send_msg ++ ".) Please try again later.", "", none, none⟩ := by
  constructor <;>
    simp [code_get_score_queueing, oe_get_score_queueing, CorrectMap.set]

/-- C10: a structurally valid open-ended grader reply with numeric score q is
marked correct exactly when q reaches max_score, because
int(score) / max_score is Python 2 integer floor division: the intended 0.66
threshold is unreachable strictly between 0 and max_score. -/
theorem oe_parse_score_msg_floor_division
    (max_score : ℤ) (fields : List (String × PyVal)) (q : ℚ)
    (hscore : lookupTag fields "score" = some (.pnum q))
    (hvalid : (oe_parse_score_msg max_score (some (.pdict fields))).valid
      = true)
    (hmax : 2 ≤ max_score) :
    ((oe_parse_score_msg max_score (some (.pdict fields))).correct = true
      ↔ (max_score : ℚ) ≤ q) := by
  have hmpos : (0 : ℤ) < max_score := lt_of_lt_of_le zero_lt_two hmax
  by_cases ht : hasTags fields
      ["score", "feedback", "grader_type", "success", "grader_id",
       "submission_id"] = true
  · simp only [oe_parse_score_msg, ht, if_true, hscore] at hvalid ⊢
    simp only [Option.getD_some, pyIntCast, decide_eq_true_eq]
    set t : ℤ := pyTruncToInt q with hdeft
    have step1 : ((66 : ℚ) / 100 ≤ (t.fdiv max_score : ℚ)) ↔
        1 ≤ t.fdiv max_score := by
      constructor
      · intro h
        have hpos : (0 : ℚ) < (t.fdiv max_score : ℚ) := lt_of_lt_of_le (by norm_num) h
        exact_mod_cast Int.cast_pos.mp hpos
      · intro h
        have : (1 : ℚ) ≤ (t.fdiv max_score : ℚ) := by exact_mod_cast h
        linarith
    have step2 : (1 ≤ t.fdiv max_score) ↔ max_score ≤ t := by
      rw [Int.fdiv_eq_ediv _ (le_of_lt hmpos)]
      rw [Int.le_ediv_iff_mul_le hmpos]
      simp
    have step3 : (max_score ≤ t) ↔ (max_score : ℚ) ≤ q := by
      rw [hdeft]
      unfold pyTruncToInt
      by_cases hneg : q < 0
      · simp only [hneg, if_true]
        constructor
        · intro h
          have hceil : ⌈q⌉ ≤ 0 := Int.ceil_le.mpr (by exact_mod_cast le_of_lt hneg)
          omega
        · intro h
          have : (max_score : ℚ) < 0 := lt_of_le_of_lt h hneg
          have : (0 : ℚ) < (max_score : ℚ) := by exact_mod_cast hmpos
          linarith
      · simp only [hneg, if_false]
        exact Int.le_floor
    rw [step1, step2, step3]
  · exfalso
    simp [oe_parse_score_msg, ht] at hvalid

/-- C10 witness: the concrete reply scoring 2 of max_score 3 is marked
incorrect, although 2/3 exceeds the intended 0.66 threshold. -/
theorem oe_parse_score_msg_floor_division_witness :
    (oe_parse_score_msg 3 (some (.pdict demoOeReply))).correct = false := by
  have h := oe_parse_score_msg_floor_division 3 demoOeReply 2 rfl rfl
    (by decide)
  cases hb : (oe_parse_score_msg 3 (some (.pdict demoOeReply))).correct with
  | false => rfl
  | true => exact absurd (h.mp hb) (by norm_num)

/-- Helper: evaluation succeeding in an environment still succeeds, with the
same value, in any environment that extends it. -/
theorem evalExpr_env_extend (env1 env2 : String → Option ℚ)
    (hext : ∀ v q, env1 v = some q → env2 v = some q) (e : FExpr) :
    ∀ r : PyFloat, evalExpr env1 e = .ok r → evalExpr env2 e = .ok r := by
  induction e with
  | num q => intro r h; exact h
  | var v =>
      intro r h
      simp only [evalExpr] at h ⊢
      cases he : env1 v with
      | none => rw [he] at h; exact absurd h (by simp)
      | some q => rw [he] at h; rw [hext v q he]; exact h
  | add a b iha ihb =>
      intro r h
      simp only [evalExpr] at h ⊢
      cases ha : evalExpr env1 a with
      | error e1 =>
          rw [ha] at h
          cases hb : evalExpr env1 b with
          | error e2 => rw [hb] at h; exact absurd h (by simp)
          | ok y => rw [hb] at h; exact absurd h (by simp)
      | ok x =>
          rw [ha] at h
          cases hb : evalExpr env1 b with
          | error e2 => rw [hb] at h; exact absurd h (by simp)
          | ok y => rw [hb] at h; rw [iha x ha, ihb y hb]; exact h
  | sub a b iha ihb =>
      intro r h
      simp only [evalExpr] at h ⊢
      cases ha : evalExpr env1 a with
      | error e1 =>
          rw [ha] at h
          cases hb : evalExpr env1 b with
          | error e2 => rw [hb] at h; exact absurd h (by simp)
          | ok y => rw [hb] at h; exact absurd h (by simp)
      | ok x =>
          rw [ha] at h
          cases hb : evalExpr env1 b with
          | error e2 => rw [hb] at h; exact absurd h (by simp)
          | ok y => rw [hb] at h; rw [iha x ha, ihb y hb]; exact h
  | mul a b iha ihb =>
      intro r h
      simp only [evalExpr] at h ⊢
      cases ha : evalExpr env1 a with
      | error e1 =>
          rw [ha] at h
          cases hb : evalExpr env1 b with
          | error e2 => rw [hb] at h; exact absurd h (by simp)
          | ok y => rw [hb] at h; exact absurd h (by simp)
      | ok x =>
          rw [ha] at h
          cases hb : evalExpr env1 b with
          | error e2 => rw [hb] at h; exact absurd h (by simp)
          | ok y => rw [hb] at h; rw [iha x ha, ihb y hb]; exact h
  | div a b iha ihb =>
      intro r h
      simp only [evalExpr] at h ⊢
      cases ha : evalExpr env1 a with
      | error e1 =>
          rw [ha] at h
          cases hb : evalExpr env1 b with
          | error e2 => rw [hb] at h; exact absurd h (by simp)
          | ok y => rw [hb] at h; exact absurd h (by simp)
      | ok x =>
          rw [ha] at h
          cases hb : evalExpr env1 b with
          | error e2 => rw [hb] at h; exact absurd h (by simp)
          | ok y => rw [hb] at h; rw [iha x ha, ihb y hb]; exact h
  | neg a iha =>
      intro r h
      simp only [evalExpr] at h ⊢
      cases ha : evalExpr env1 a with
      | error e1 => rw [ha] at h; exact absurd h (by simp)
      | ok x => rw [ha] at h; rw [iha x ha]; exact h

/-- Helper: the instructor environment extends the student sample
environment (the sampled variables shadow the script context). -/
theorem sampleEnv_extends (context : List (String × ℚ)) (spec : SampleSpec)
    (sampler : ℕ → String → ℚ) (i : ℕ) :
    ∀ v q, sampleEnv spec sampler i v = some q →
      instructorEnv context spec sampler i v = some q := by
  intro v q h
  unfold sampleEnv at h
  unfold instructorEnv
  by_cases hc : spec.var_names.contains v
  · simp only [hc, if_true] at h ⊢; exact h
  · simp only [hc, if_false] at h; exact absurd h (by simp)

/-- Helper: a value always agrees with itself within any nonnegative
tolerance. -/
theorem compare_with_tolerance_self (q : ℚ) (tol : Tolerance)
    (htol : 0 ≤ tol.val) :
    compare_with_tolerance (.fin q) (.fin q) tol = true := by
  unfold compare_with_tolerance
  have hsub : pfSub (.fin q) (.fin q) = .fin 0 := by
    simp only [pfSub, pfNeg, pfAdd]
    rw [add_neg_cancel]
    unfold ovf floatOverflowBound
    rw [if_neg (by norm_num), if_neg (by norm_num)]
  rw [hsub]
  by_cases hrel : tol.relative
  · simp only [hrel, if_true]
    have hmax : pfMax (pfAbs (.fin q)) (pfAbs (.fin q)) = .fin |q| := by
      simp [pfMax, pfAbs, pfLe]
    rw [hmax]
    simp only [pfMul]
    have hnn : 0 ≤ tol.val * (1 / 100) * |q| := by positivity
    unfold ovf floatOverflowBound
    by_cases hbig : (2 : ℚ) ^ 1024 ≤ tol.val * (1 / 100) * |q|
    · rw [if_pos hbig]; simp [pfAbs, pfLe]
    · rw [if_neg hbig, if_neg (by nlinarith [pow_pos (show (0:ℚ) < 2 by norm_num) 1024])]
      simp [pfAbs, pfLe]
      positivity
  · simp only [hrel, if_false]
    simp [pfAbs, pfLe]
    exact htol

/-- C6 counterexample: an expression whose (shared) evaluation overflows to
Inf is graded incorrect even when the student expression is syntactically
identical to the instructor expression. -/
theorem check_formula_identical_overflow_incorrect :
    check_formula ⟨false, 1/100000⟩ [] overflowExpr overflowExpr
        ⟨["x"], 1⟩ (fun _ _ => 0) = .ok "incorrect"
    ∧ ("incorrect" : String) ≠ "correct" := by
  constructor
  · have hbig : (2:ℚ) ^ 1024 ≤ 2 ^ 600 * 2 ^ 600 := by norm_num
    norm_num [check_formula, check_formula_loop, evalExpr, overflowExpr,
      instructorEnv, sampleEnv, pfMul, ovf, floatOverflowBound, hbig,
      pfIsNan, pfIsInf]
  · decide

/-- C6 (amended): check_formula with syntactically identical instructor and
student expressions grades correct provided the tolerance is nonnegative and
the student evaluation at every sample yields a finite value; evaluation to
NaN/Inf instead yields incorrect and evaluation errors raise
StudentInputError. -/
theorem check_formula_identical_finite_correct
    (tol : Tolerance) (context : List (String × ℚ)) (E : FExpr)
    (spec : SampleSpec) (sampler : ℕ → String → ℚ)
    (htol : 0 ≤ tol.val)
    (hfin : ∀ i, i < spec.numsamples → ∃ q : ℚ,
      evalExpr (sampleEnv spec sampler i) E = .ok (.fin q)) :
    check_formula tol context E E spec sampler = .ok "correct" := by
  unfold check_formula
  suffices h : ∀ k i, i + k ≤ spec.numsamples →
      check_formula_loop tol context E E spec sampler i k = .ok "correct" by
    exact h spec.numsamples 0 (by omega)
  intro k
  induction k with
  | zero => intro i _; rfl
  | succ k ih =>
      intro i hik
      have hi : i < spec.numsamples := by omega
      obtain ⟨q, hq⟩ := hfin i hi
      have hinstr : evalExpr (instructorEnv context spec sampler i) E
          = .ok (.fin q) :=
        evalExpr_env_extend _ _ (sampleEnv_extends context spec sampler i) E
          _ hq
      rw [check_formula_loop, hinstr, hq]
      simp only [pfIsNan, pfIsInf, Bool.or_false,
        compare_with_tolerance_self q tol htol]
      simpa using ih (i + 1) (by omega)

/-- C6 witness: identical expressions evaluating to the finite value 1 at
both samples grade correct. -/
theorem check_formula_identical_finite_correct_witness :
    check_formula ⟨false, 1/100000⟩ [] (.var "x") (.var "x") ⟨["x"], 2⟩
      (fun _ _ => 1) = .ok "correct" :=
  check_formula_identical_finite_correct ⟨false, 1/100000⟩ [] (.var "x")
    ⟨["x"], 2⟩ (fun _ _ => 1) (by norm_num) (fun i _ => ⟨1, rfl⟩)

/-- C7: a student answer the expression evaluator cannot interpret as a
number makes NumericalResponse.get_score fail with the recoverable
StudentInputError (never the fatal kind), while an answer that evaluates
never raises and is graded correct or incorrect. -/
theorem numerical_get_score_error_handling :
    (∀ (correct_answer : Option ℚ) (tol : Tolerance)
      (student_answer : Option FExpr),
      (student_answer = none ∨ ∃ e err, student_answer = some e
        ∧ evalExpr (fun _ => none) e = .error err) →
      ∃ m, numerical_get_score correct_answer tol student_answer
        = .error (.studentInput m))
    ∧ (∀ (c : ℚ) (tol : Tolerance) (e : FExpr) (v : PyFloat),
      evalExpr (fun _ => none) e = .ok v →
      numerical_get_score (some c) tol (some e) = .ok "correct"
      ∨ numerical_get_score (some c) tol (some e) = .ok "incorrect") := by
  constructor
  · intro correct_answer tol student_answer hbad
    cases correct_answer with
    | none => exact ⟨_, rfl⟩
    | some c =>
        rcases hbad with hnone | ⟨e, err, hsome, herr⟩
        · subst hnone; exact ⟨_, rfl⟩
        · subst hsome
          refine ⟨"Invalid input: could not interpret answer as a number", ?_⟩
          simp [numerical_get_score, herr]
  · intro c tol e v hok
    by_cases hcmp : compare_with_tolerance v (.fin c) tol = true
    · left; simp [numerical_get_score, hok, hcmp]
    · right
      simp [numerical_get_score, hok]
      exact Bool.not_eq_true _ ▸ hcmp

/-- C7 witness: an unparseable answer yields StudentInputError while the
literal answer 1 is graded (correct or incorrect) without raising. -/
theorem numerical_get_score_error_handling_witness :
    (∃ m, numerical_get_score (some 1) ⟨false, 0⟩ none
      = .error (.studentInput m))
    ∧ (numerical_get_score (some 1) ⟨false, 0⟩ (some (.num 1)) = .ok "correct"
      ∨ numerical_get_score (some 1) ⟨false, 0⟩ (some (.num 1))
        = .ok "incorrect") :=
  ⟨numerical_get_score_error_handling.1 (some 1) ⟨false, 0⟩ none (Or.inl rfl),
   numerical_get_score_error_handling.2 1 ⟨false, 0⟩ (.num 1) (.fin 1) rfl⟩

/-- Helper: strict hull containment implies closed-hull membership. -/
theorem hullContainsStrict_imp_inConvexHull (pts : List (ℤ × ℤ)) (p : ℤ × ℤ)
    (h : hullContainsStrict pts p = true) : inConvexHull pts p = true := by
  unfold hullContainsStrict at h
  simp only [Bool.and_eq_true] at h
  exact h.1.2

/-- C8: a click inside any solution rectangle (inclusive bounds) grades
correct, and a click outside every rectangle and outside the convex hull of
every declared region grades incorrect. -/
theorem image_response_rect_and_hull_grading (rectangles : List Rect)
    (regions : List (List (ℤ × ℤ))) (gx gy : ℤ) :
    ((∃ r ∈ rectangles,
        r.llx ≤ gx ∧ gx ≤ r.urx ∧ r.lly ≤ gy ∧ gy ≤ r.ury) →
      imageResponseScoreOne rectangles regions gx gy = "correct")
    ∧ ((∀ r ∈ rectangles,
        ¬(r.llx ≤ gx ∧ gx ≤ r.urx ∧ r.lly ≤ gy ∧ gy ≤ r.ury)) →
      (∀ region ∈ regions, inConvexHull region (gx, gy) = false) →
      imageResponseScoreOne rectangles regions gx gy = "incorrect") := by
  constructor
  · rintro ⟨r, hr, h1, h2, h3, h4⟩
    have hany : rectangles.any (fun r => inRectangle r gx gy) = true :=
      List.any_eq_true.mpr ⟨r, hr, by simp [inRectangle, h1, h2, h3, h4]⟩
    simp [imageResponseScoreOne, hany]
  · intro hrect hreg
    have hany : rectangles.any (fun r => inRectangle r gx gy) = false := by
      cases hb : rectangles.any (fun r => inRectangle r gx gy) with
      | false => rfl
      | true =>
          obtain ⟨r, hr, hrin⟩ := List.any_eq_true.mp hb
          simp only [inRectangle, Bool.and_eq_true, decide_eq_true_eq] at hrin
          exact absurd ⟨hrin.1.1.1, hrin.1.1.2, hrin.1.2, hrin.2⟩ (hrect r hr)
    have hanyreg : regions.any
        (fun region => hullContainsStrict region (gx, gy)) = false := by
      cases hb : regions.any (fun region => hullContainsStrict region (gx, gy))
        with
      | false => rfl
      | true =>
          obtain ⟨region, hr, hrin⟩ := List.any_eq_true.mp hb
          have := hullContainsStrict_imp_inConvexHull region (gx, gy) hrin
          rw [hreg region hr] at this
          exact absurd this (by simp)
    by_cases hempty : regions.isEmpty
    · simp [imageResponseScoreOne, hany, hempty]
    · simp [imageResponseScoreOne, hany, hempty, hanyreg]

/-- C8 witness: the corner point (10,30) of rectangle (10,10)-(20,30) grades
correct; the origin, outside the rectangle and outside the region hull,
grades incorrect. -/
theorem image_response_rect_and_hull_grading_witness :
    imageResponseScoreOne [⟨10, 10, 20, 30⟩]
        [[(100, 100), (120, 130), (110, 150)]] 10 30 = "correct"
    ∧ imageResponseScoreOne [⟨10, 10, 20, 30⟩]
        [[(100, 100), (120, 130), (110, 150)]] 0 0 = "incorrect" := by
  constructor
  · exact (image_response_rect_and_hull_grading [⟨10, 10, 20, 30⟩]
      [[(100, 100), (120, 130), (110, 150)]] 10 30).1
      ⟨⟨10, 10, 20, 30⟩, by decide, by decide, by decide, by decide, by decide⟩
  · exact (image_response_rect_and_hull_grading [⟨10, 10, 20, 30⟩]
      [[(100, 100), (120, 130), (110, 150)]] 0 0).2 (by decide) (by decide)

/-- Helper: two booleans agreeing as propositions are equal. -/
theorem bool_eq_of_iff {a b : Bool} (h : a = true ↔ b = true) : a = b := by
  cases a <;> cases b <;> simp_all

/-- Helper: all is invariant under permutation. -/
theorem perm_all_eq {α : Type} (f : α → Bool) {l1 l2 : List α}
    (h : l1.Perm l2) : l1.all f = l2.all f := by
  refine bool_eq_of_iff ?_
  simp only [List.all_eq_true]
  exact ⟨fun hh x hx => hh x (h.mem_iff.mpr hx),
    fun hh x hx => hh x (h.mem_iff.mp hx)⟩

/-- Helper: any is invariant under permutation. -/
theorem perm_any_eq {α : Type} (f : α → Bool) {l1 l2 : List α}
    (h : l1.Perm l2) : l1.any f = l2.any f := by
  refine bool_eq_of_iff ?_
  simp only [List.any_eq_true]
  exact ⟨fun ⟨x, hx, hfx⟩ => ⟨x, h.mem_iff.mp hx, hfx⟩,
    fun ⟨x, hx, hfx⟩ => ⟨x, h.mem_iff.mpr hx, hfx⟩⟩

/-- Helper: the exact branch of compare_positions. -/
theorem compare_positions_exact_eq (correct user : List DndItem) :
    compare_positions correct user "exact"
      = (correct.length == user.length &&
          (List.zip user correct).all (fun p => dndEq p.1 p.2)) := rfl

/-- Helper: the anyof branch of compare_positions. -/
theorem compare_positions_anyof_eq (correct user : List DndItem) :
    compare_positions correct user "anyof"
      = user.all (fun u => correct.any (fun c => dndEq u c)) := rfl

/-- Helper: the unordered_equal branch of compare_positions. -/
theorem compare_positions_unordered_eq (correct user : List DndItem) :
    compare_positions correct user "unordered_equal"
      = (user.all (fun u => correct.any (fun c => dndEq u c)) &&
          correct.all (fun c => user.any (fun u => dndEq u c))) := rfl

/-- Helper: the anyof+number branch of compare_positions. -/
theorem compare_positions_anyof_number_eq (correct user : List DndItem) :
    compare_positions correct user "anyof+number"
      = ((user.length == correct.length) &&
          user.all (fun u => correct.any (fun c => dndEq u c))) := rfl

/-- Helper: the unordered_equal+number branch of compare_positions. -/
theorem compare_positions_unordered_number_eq (correct user : List DndItem) :
    compare_positions correct user "unordered_equal+number"
      = ((user.length == correct.length) &&
          (user.all (fun u => correct.any (fun c => dndEq u c)) &&
            correct.all (fun c => user.any (fun u => dndEq u c)))) := rfl

/-- C9: anyof and unordered_equal (and their +number variants) give the same
verdict under any permutation of the user list; the +number variants reject
any count mismatch outright; on correct [target1, target3] the duplicate user
answer [target1, target1] fails unordered_equal+number yet passes anyof; and
exact is order-sensitive: a permutation of the user list flips its verdict on
a concrete instance. -/
theorem compare_positions_rules :
    (∀ (correct user user2 : List DndItem), user.Perm user2 →
      compare_positions correct user "anyof"
        = compare_positions correct user2 "anyof"
      ∧ compare_positions correct user "unordered_equal"
        = compare_positions correct user2 "unordered_equal"
      ∧ compare_positions correct user "anyof+number"
        = compare_positions correct user2 "anyof+number"
      ∧ compare_positions correct user "unordered_equal+number"
        = compare_positions correct user2 "unordered_equal+number")
    ∧ (∀ (correct user : List DndItem), user.length ≠ correct.length →
      compare_positions correct user "anyof+number" = false
      ∧ compare_positions correct user "unordered_equal+number" = false)
    ∧ (compare_positions [.target "target1", .target "target3"]
        [.target "target1", .target "target1"] "unordered_equal+number"
          = false
      ∧ compare_positions [.target "target1", .target "target3"]
        [.target "target1", .target "target1"] "anyof" = true)
    ∧ (compare_positions [.target "a", .target "b", .target "c"]
        [.target "a", .target "c", .target "b"] "exact" = false
      ∧ compare_positions [.target "a", .target "b", .target "c"]
        [.target "a", .target "b", .target "c"] "exact" = true
      ∧ ([DndItem.target "a", .target "c", .target "b"].Perm
          [DndItem.target "a", .target "b", .target "c"])) := by
  refine ⟨?_, ?_, ?_, ?_⟩
  · intro correct user user2 hperm
    have hlen := hperm.length_eq
    have hall := perm_all_eq (fun u => correct.any (fun c => dndEq u c)) hperm
    have hanyf : (fun c => user.any (fun u => dndEq u c))
        = (fun c => user2.any (fun u => dndEq u c)) :=
      funext fun c => perm_any_eq (fun u => dndEq u c) hperm
    refine ⟨?_, ?_, ?_, ?_⟩
    · rw [compare_positions_anyof_eq, compare_positions_anyof_eq, hall]
    · rw [compare_positions_unordered_eq, compare_positions_unordered_eq,
        hall, hanyf]
    · rw [compare_positions_anyof_number_eq,
        compare_positions_anyof_number_eq, hall, hlen]
    · rw [compare_positions_unordered_number_eq,
        compare_positions_unordered_number_eq, hall, hanyf, hlen]
  · intro correct user hne
    have hbeq : (user.length == correct.length) = false := by
      simpa using hne
    constructor <;> simp [compare_positions, hbeq]
  · constructor <;> decide
  · refine ⟨by decide, by decide, ?_⟩
    exact List.Perm.cons _ (List.Perm.swap _ _ _)

/-- C9 witness: permutation invariance applied to a concrete user-list
permutation, and the concrete count-mismatch rejection. -/
theorem compare_positions_rules_witness :
    compare_positions [.target "a", .target "b", .target "c"]
        [.target "a", .target "c", .target "b"] "anyof"
      = compare_positions [.target "a", .target "b", .target "c"]
        [.target "a", .target "b", .target "c"] "anyof"
    ∧ compare_positions [.target "a"] [.target "a", .target "a"]
        "anyof+number" = false := by
  constructor
  · exact (compare_positions_rules.1 [.target "a", .target "b", .target "c"]
      [.target "a", .target "c", .target "b"]
      [.target "a", .target "b", .target "c"]
      (List.Perm.cons _ (List.Perm.swap _ _ _))).1
  · exact (compare_positions_rules.2.1 [.target "a"]
      [.target "a", .target "a"] (by decide)).1
